import Mathlib

/-!
Shallow embedding of the agent-network schema's procedural logic
(`schema.sql`: `evaluate_match`, `broadcast_request`, `record_agent_response`,
`get_ranked_results`) over explicit record types.

Conventions of the embedding:
* SQL tables are lists of rows inside a `State`; the list order stands for the
  physical enumeration order of the rows, which SQL leaves unspecified.
  Two states whose tables are permutations of one another hold the same
  stored data.
* `FLOAT` columns are modelled as `Rat`; `UUID` keys as `String`.
* A plpgsql function that can raise (unique-constraint or foreign-key
  violation) returns `Except DbError _`; an error aborts the whole function,
  so no partial write is ever produced — the caller keeps the old state.
* `jsonb_agg` / `json_agg` over zero rows yield SQL `NULL`, modelled as
  `Option` being `none`; likewise `array_length` of an empty aggregation.
-/

deriving instance DecidableEq for Except

attribute [local semireducible] Rat.mul Rat.inv Rat.add Rat.sub

namespace AgentNetwork

/-- Row of the `users` table (columns the core logic reads). -/
structure User where
  id : String
  name : String
deriving DecidableEq

/-- Row of the `profiles` table (columns the core logic reads). -/
structure Profile where
  user_id : String
  title : Option String
  skills : List String
deriving DecidableEq

/-- Row of the `connections` table. -/
structure Connection where
  user_a_id : String
  user_b_id : String
  trust_score : Rat
deriving DecidableEq

/-- Row of the `service_requests` table: `structured_query->'skills'` is the
required-skill list, `status` is one of active / completed / cancelled. -/
structure ServiceRequest where
  id : String
  requesting_user_id : String
  skills : List String
  status : String
deriving DecidableEq

/-- Row of the `agent_responses` table. -/
structure AgentResponse where
  request_id : String
  responding_user_id : String
  is_match : Bool
  match_score : Rat
  match_explanation : String
  matched_skills : List String
deriving DecidableEq

/-- Row of the `agent_messages` audit table. -/
structure AgentMessage where
  from_user_id : String
  to_user_id : Option String
  message_type : String
  request_id : Option String
deriving DecidableEq

/-- The database state: one list of rows per table. -/
structure State where
  users : List User
  profiles : List Profile
  connections : List Connection
  service_requests : List ServiceRequest
  agent_responses : List AgentResponse
  agent_messages : List AgentMessage
deriving DecidableEq

/-- Errors a statement can raise: the `UNIQUE` constraint on
`(request_id, responding_user_id)` and any `REFERENCES` clause. -/
inductive DbError where
  | UniqueViolation
  | ForeignKeyViolation
deriving DecidableEq

/-- Result record built by `evaluate_match`'s `json_build_object`. -/
structure MatchResult where
  is_match : Bool
  match_score : Rat
  matched_skills : List String
  explanation : String
deriving DecidableEq

/-- `evaluate_match`, the skill-matching core: profile skills that appear
among the request's skills (the `WHERE skill IN (...)` filter ranges over the
profile-side elements, so duplicates on the profile side each count);
`jsonb_agg` over zero rows is `NULL`, taking the `ELSE` branch. -/
def evaluate_match (request_skills profile_skills : List String) : MatchResult :=
  let matched_skills := profile_skills.filter fun skill => decide (skill ∈ request_skills)
  if matched_skills.isEmpty then
    { is_match := false
      match_score := 0
      matched_skills := []
      explanation := "No matching skills found" }
  else
    let match_score : Rat :=
      (matched_skills.length : Rat) / ((max request_skills.length 1 : Nat) : Rat)
    { is_match := decide ((3 : Rat) / 10 ≤ match_score)
      match_score := match_score
      matched_skills := matched_skills
      explanation := "Matched " ++ toString matched_skills.length ++ " of "
        ++ toString request_skills.length ++ " required skills" }

/-- The neighbor extraction shared by `get_connections` and
`broadcast_request`: rows of `connections` touching `uid`, each mapped to the
opposite endpoint (`CASE WHEN user_a_id = uid THEN user_b_id ELSE user_a_id`). -/
def connectedUsers (st : State) (uid : String) : List String :=
  (st.connections.filter fun c => c.user_a_id == uid || c.user_b_id == uid).map
    fun c => if c.user_a_id == uid then c.user_b_id else c.user_a_id

/-- `REFERENCES users(id)` check. -/
def userExists (st : State) (uid : String) : Bool :=
  st.users.any fun u => u.id == uid

/-- `REFERENCES service_requests(id)` check. -/
def requestExists (st : State) (rid : String) : Bool :=
  st.service_requests.any fun r => r.id == rid

/-- Return value of `broadcast_request`'s `json_build_object`: `broadcast_to`
is `array_length(connected_users, 1)`, which is SQL `NULL` (here `none`) when
the requester has no connections. -/
structure BroadcastResult where
  broadcast_to : Option Nat
  request_id : String
  status : String
deriving DecidableEq

/-- `broadcast_request`: collects the requester's neighbors, inserts one
`query_broadcast` message per neighbor (each row subject to the foreign keys
of `agent_messages`), and reports `array_length` of the neighbor array.
With zero neighbors nothing is inserted — no foreign key fires even for a
nonexistent request — and `array_length` is `NULL`.  No check of the
request's `status` occurs anywhere in the function. -/
def broadcast_request (st : State) (p_requesting_user_id p_request_id : String) :
    Except DbError (BroadcastResult × State) :=
  let connected_users := connectedUsers st p_requesting_user_id
  if connected_users.isEmpty then
    .ok ({ broadcast_to := none, request_id := p_request_id, status := "sent" }, st)
  else if userExists st p_requesting_user_id
      && connected_users.all (fun c => userExists st c)
      && requestExists st p_request_id then
    let msgs : List AgentMessage := connected_users.map fun c =>
      { from_user_id := p_requesting_user_id
        to_user_id := some c
        message_type := "query_broadcast"
        request_id := some p_request_id }
    .ok ({ broadcast_to := some connected_users.length
           request_id := p_request_id
           status := "sent" },
         { st with agent_messages := st.agent_messages ++ msgs })
  else .error .ForeignKeyViolation

/-- The `agent_responses` row inserted by `record_agent_response` for a given
evaluation. -/
def mkAgentResponse (p_request_id p_responding_user_id : String)
    (ev : MatchResult) : AgentResponse :=
  { request_id := p_request_id
    responding_user_id := p_responding_user_id
    is_match := ev.is_match
    match_score := ev.match_score
    match_explanation := ev.explanation
    matched_skills := ev.matched_skills }

/-- `record_agent_response`: the `INSERT INTO agent_responses` is subject to
the two foreign keys and to `UNIQUE(request_id, responding_user_id)`; on
success a `response` message addressed to the requester is appended (its own
`to_user_id` foreign key included).  Any violation aborts the whole function
with no partial write, so the returned `.error` leaves the caller's state
untouched.  The request's `status` is never consulted. -/
def record_agent_response (st : State) (p_request_id p_responding_user_id : String)
    (ev : MatchResult) : Except DbError State :=
  if ¬ requestExists st p_request_id then .error .ForeignKeyViolation
  else if ¬ userExists st p_responding_user_id then .error .ForeignKeyViolation
  else if st.agent_responses.any (fun r =>
      r.request_id == p_request_id && r.responding_user_id == p_responding_user_id) then
    .error .UniqueViolation
  else
    match st.service_requests.find? (fun r => r.id == p_request_id) with
    | none => .error .ForeignKeyViolation
    | some sr =>
      if ¬ userExists st sr.requesting_user_id then .error .ForeignKeyViolation
      else
        let msg : AgentMessage :=
          { from_user_id := p_responding_user_id
            to_user_id := some sr.requesting_user_id
            message_type := "response"
            request_id := some p_request_id }
        .ok { st with
              agent_responses :=
                st.agent_responses
                  ++ [mkAgentResponse p_request_id p_responding_user_id ev]
              agent_messages := st.agent_messages ++ [msg] }

/-- The `LEFT JOIN connections ... COALESCE(c.trust_score, 1.0)` of
`get_ranked_results`: the trust weight of the edge between requester `q` and
candidate `cand` in either orientation, defaulting to `1` when no edge
exists (at most one edge per unordered pair by the unique index). -/
def trust_lookup (st : State) (q cand : String) : Rat :=
  match st.connections.find? (fun c =>
      (c.user_a_id == q && c.user_b_id == cand)
        || (c.user_b_id == q && c.user_a_id == cand)) with
  | some c => c.trust_score
  | none => 1

/-- One element of `get_ranked_results`' `json_agg`. -/
structure RankedMatch where
  user_id : String
  name : String
  title : Option String
  match_score : Rat
  matched_skills : List String
  explanation : String
  trust_score : Rat
  final_score : Rat
deriving DecidableEq

/-- One row of the join inside `get_ranked_results`: `JOIN users` (inner, so
a candidate with no `users` row drops out), `LEFT JOIN profiles` for the
title, `LEFT JOIN service_requests` for the requester, `LEFT JOIN
connections` folded into `trust_lookup`. -/
def rankRow (st : State) (p_request_id : String) (ar : AgentResponse) :
    Option RankedMatch :=
  (st.users.find? (fun u => u.id == ar.responding_user_id)).map fun u =>
    let title := (st.profiles.find? (fun p => p.user_id == ar.responding_user_id)).bind
      fun p => p.title
    let trust :=
      match st.service_requests.find? (fun r => r.id == p_request_id) with
      | some sr => trust_lookup st sr.requesting_user_id ar.responding_user_id
      | none => 1
    { user_id := ar.responding_user_id
      name := u.name
      title := title
      match_score := ar.match_score
      matched_skills := ar.matched_skills
      explanation := ar.match_explanation
      trust_score := trust
      final_score := ar.match_score * (7 / 10) + trust * (3 / 10) }

/-- Insertion step of the `ORDER BY ... DESC` sort on `final_score`.  The
SQL carries no secondary sort key; this realization keeps input order among
equal keys, one of the enumeration-dependent orders the engine may emit. -/
def insertDesc (x : RankedMatch) : List RankedMatch → List RankedMatch
  | [] => [x]
  | y :: ys =>
    if y.final_score ≤ x.final_score then x :: y :: ys else y :: insertDesc x ys

/-- Sort descending by `final_score` (see `insertDesc`). -/
def sortDesc : List RankedMatch → List RankedMatch
  | [] => []
  | x :: xs => insertDesc x (sortDesc xs)

/-- `get_ranked_results`: responses for the request with `is_match = TRUE`,
joined, ordered descending by `final_score`; `json_agg` over zero rows is
SQL `NULL`, modelled as `none` — there is no `COALESCE(..., '[]')` around
this aggregate. -/
def get_ranked_results (st : State) (p_request_id : String) :
    Option (List RankedMatch) :=
  let rows := (st.agent_responses.filter fun ar =>
      ar.request_id == p_request_id && ar.is_match).filterMap (rankRow st p_request_id)
  let sorted := sortDesc rows
  if sorted.isEmpty then none else some sorted

/-- A match evaluation used by the concrete stores below. -/
def evHalf : MatchResult :=
  { is_match := true
    match_score := 1 / 2
    matched_skills := ["Figma"]
    explanation := "Matched 1 of 2 required skills" }

/-- Store with one matching response from `u1` to `q1`'s request `r1` and a
trust-0.9 edge between them. -/
def W2 : State :=
  { users := [{ id := "u1", name := "Alice" }, { id := "q1", name := "Bob" }]
    profiles := [{ user_id := "u1", title := some "Designer", skills := ["Figma"] }]
    connections := [{ user_a_id := "q1", user_b_id := "u1", trust_score := 9 / 10 }]
    service_requests :=
      [{ id := "r1", requesting_user_id := "q1", skills := ["Figma", "React"],
         status := "active" }]
    agent_responses :=
      [{ request_id := "r1", responding_user_id := "u1", is_match := true,
         match_score := 1 / 2,
         match_explanation := "Matched 1 of 2 required skills",
         matched_skills := ["Figma"] }]
    agent_messages := [] }

/-- The request row of `W2`. -/
def sr2 : ServiceRequest :=
  { id := "r1", requesting_user_id := "q1", skills := ["Figma", "React"],
    status := "active" }

/-- The single ranked row `get_ranked_results W2 "r1"` produces. -/
def m2 : RankedMatch :=
  { user_id := "u1"
    name := "Alice"
    title := some "Designer"
    match_score := 1 / 2
    matched_skills := ["Figma"]
    explanation := "Matched 1 of 2 required skills"
    trust_score := 9 / 10
    final_score := 31 / 50 }

/-- Store with request `r1` active and no response yet, ready for a first
`record_agent_response`. -/
def W4 : State :=
  { users := [{ id := "u1", name := "Alice" }, { id := "q1", name := "Bob" }]
    profiles := []
    connections := [{ user_a_id := "q1", user_b_id := "u1", trust_score := 9 / 10 }]
    service_requests :=
      [{ id := "r1", requesting_user_id := "q1", skills := ["Figma", "React"],
         status := "active" }]
    agent_responses := []
    agent_messages := [] }

/-- `W4` after the first successful `record_agent_response`. -/
def W4ok : State :=
  { W4 with
    agent_responses := [mkAgentResponse "r1" "u1" evHalf]
    agent_messages :=
      [{ from_user_id := "u1", to_user_id := some "q1",
         message_type := "response", request_id := some "r1" }] }

/-- Store whose only request `r1` is already `completed`; `u1` is its
requester and is connected to `u2`. -/
def W5 : State :=
  { users := [{ id := "u1", name := "Alice" }, { id := "u2", name := "Bob" }]
    profiles := []
    connections := [{ user_a_id := "u1", user_b_id := "u2", trust_score := 4 / 5 }]
    service_requests :=
      [{ id := "r1", requesting_user_id := "u1", skills := ["Figma"],
         status := "completed" }]
    agent_responses := []
    agent_messages := [] }

/-- A matching response row for request `r1` from `ua`. -/
def respOf (ua : String) : AgentResponse :=
  { request_id := "r1", responding_user_id := ua, is_match := true,
    match_score := 1 / 2,
    match_explanation := "Matched 1 of 2 required skills",
    matched_skills := ["Figma"] }

/-- Store with two equally-scored matching candidates `a` and `b`,
responses enumerated `a` first. -/
def E6a : State :=
  { users := [{ id := "q", name := "Quinn" }, { id := "a", name := "Ada" },
              { id := "b", name := "Ben" }]
    profiles := []
    connections :=
      [{ user_a_id := "q", user_b_id := "a", trust_score := 9 / 10 },
       { user_a_id := "q", user_b_id := "b", trust_score := 9 / 10 }]
    service_requests :=
      [{ id := "r1", requesting_user_id := "q", skills := ["Figma", "React"],
         status := "active" }]
    agent_responses := [respOf "a", respOf "b"]
    agent_messages := [] }

/-- Same stored rows as `E6a`, responses enumerated `b` first. -/
def E6b : State :=
  { E6a with agent_responses := [respOf "b", respOf "a"] }

/-- Store whose user `u1` has zero connections and an active request `r1`. -/
def E7 : State :=
  { users := [{ id := "u1", name := "Alice" }]
    profiles := []
    connections := []
    service_requests :=
      [{ id := "r1", requesting_user_id := "u1", skills := ["Figma"],
         status := "active" }]
    agent_responses := []
    agent_messages := [] }

/-- Store where the only response to `r1` has `is_match = false`. -/
def E8 : State :=
  { users := [{ id := "u1", name := "Alice" }, { id := "u2", name := "Bob" }]
    profiles := []
    connections := [{ user_a_id := "u1", user_b_id := "u2", trust_score := 1 / 2 }]
    service_requests :=
      [{ id := "r1", requesting_user_id := "u1", skills := ["Figma"],
         status := "active" }]
    agent_responses :=
      [{ request_id := "r1", responding_user_id := "u2", is_match := false,
         match_score := 0, match_explanation := "No matching skills found",
         matched_skills := [] }]
    agent_messages := [] }

/-- Contract of `evaluate_match` over set-typed skills: the matched skills
are the case-sensitive intersection, the score divides its cardinality by
`max |required| 1`, the verdict is the 0.3 threshold, and an empty
requirement set scores 0 and matches nobody. -/
def EvaluateMatchSpec (request_skills profile_skills : List String) : Prop :=
  (evaluate_match request_skills profile_skills).matched_skills.toFinset
      = request_skills.toFinset ∩ profile_skills.toFinset
  ∧ (evaluate_match request_skills profile_skills).match_score
      = ((request_skills.toFinset ∩ profile_skills.toFinset).card : Rat)
        / ((max request_skills.toFinset.card 1 : Nat) : Rat)
  ∧ ((evaluate_match request_skills profile_skills).is_match = true
      ↔ (3 : Rat) / 10 ≤ (evaluate_match request_skills profile_skills).match_score)
  ∧ (request_skills = [] →
      (evaluate_match request_skills profile_skills).match_score = 0
      ∧ (evaluate_match request_skills profile_skills).is_match = false)

/-- What `evaluate_match` actually formats: the no-period template when at
least one skill matched, a distinct fixed sentence when none did. -/
def ExplanationSpec (request_skills profile_skills : List String) : Prop :=
  ((evaluate_match request_skills profile_skills).matched_skills = [] →
    (evaluate_match request_skills profile_skills).explanation
      = "No matching skills found")
  ∧ ((evaluate_match request_skills profile_skills).matched_skills ≠ [] →
    (evaluate_match request_skills profile_skills).explanation
      = "Matched "
        ++ toString (evaluate_match request_skills profile_skills).matched_skills.length
        ++ " of " ++ toString request_skills.length ++ " required skills")

/-- Contract of one ranked row: trust is the edge weight looked up between
the requester and the candidate (defaulting to 1 when no edge exists) and
the final score is the fixed 0.7/0.3 blend. -/
def RankedEntrySpec (st : State) (sr : ServiceRequest) (m : RankedMatch) : Prop :=
  m.trust_score = trust_lookup st sr.requesting_user_id m.user_id
  ∧ m.final_score = m.match_score * (7 / 10) + m.trust_score * (3 / 10)
  ∧ ((st.connections.find? fun c =>
        (c.user_a_id == sr.requesting_user_id && c.user_b_id == m.user_id)
          || (c.user_b_id == sr.requesting_user_id && c.user_a_id == m.user_id)) = none
      → m.trust_score = 1)

/-- A ranked row is backed by a stored response for this request with
`is_match = true` from the same candidate with the same match score. -/
def BackedByMatchingResponse (st : State) (p_request_id : String)
    (m : RankedMatch) : Prop :=
  ∃ ar, ar ∈ st.agent_responses ∧ ar.request_id = p_request_id
    ∧ ar.is_match = true ∧ ar.responding_user_id = m.user_id
    ∧ ar.match_score = m.match_score

end AgentNetwork

namespace AgentNetwork

/-- C1: on set-typed skill data (no duplicate strings, the data model's
typing of both skill fields), `evaluate_match` computes the case-sensitive
intersection, the guarded ratio score, and the 0.3-threshold verdict, with
an empty requirement set scoring 0 and never matching. -/
theorem c1_evaluate_match_contract (request_skills profile_skills : List String)
    (hreq : request_skills.Nodup) (hprof : profile_skills.Nodup) :
    EvaluateMatchSpec request_skills profile_skills := by
  have hfin : (profile_skills.filter
        fun skill => decide (skill ∈ request_skills)).toFinset
      = request_skills.toFinset ∩ profile_skills.toFinset := by
    ext a
    simp only [List.mem_toFinset, List.mem_filter, decide_eq_true_eq,
      Finset.mem_inter]
    exact and_comm
  have hnodup : (profile_skills.filter
      fun skill => decide (skill ∈ request_skills)).Nodup := hprof.filter _
  have hcard : ((request_skills.toFinset ∩ profile_skills.toFinset).card)
      = (profile_skills.filter
          fun skill => decide (skill ∈ request_skills)).length := by
    rw [← hfin, List.toFinset_card_of_nodup hnodup]
  have hreqcard : request_skills.toFinset.card = request_skills.length :=
    List.toFinset_card_of_nodup hreq
  unfold EvaluateMatchSpec evaluate_match
  by_cases hempty : (profile_skills.filter
      fun skill => decide (skill ∈ request_skills)).isEmpty = true
  · have hnil : (profile_skills.filter
        fun skill => decide (skill ∈ request_skills)) = [] :=
      List.isEmpty_iff.mp hempty
    simp only [if_pos hempty]
    refine ⟨?_, ?_, ?_, fun _ => by exact ⟨trivial, trivial⟩⟩
    · rw [← hfin, hnil]
    · rw [hcard, hnil]
      simp
    · simp only [Bool.false_eq_true, false_iff, not_le]
      norm_num
  · have hne : (profile_skills.filter
        fun skill => decide (skill ∈ request_skills)) ≠ [] := by
      intro hnil
      rw [hnil] at hempty
      exact hempty rfl
    simp only [if_neg hempty]
    refine ⟨hfin, ?_, ?_, ?_⟩
    · rw [hcard, hreqcard]
    · simp [decide_eq_true_eq]
    · intro hrnil
      exfalso
      apply hne
      rw [hrnil]
      simp [List.filter_eq_nil_iff]

/-- C1 witness: the documented Figma example satisfies the contract. -/
theorem c1_evaluate_match_contract_witness :
    EvaluateMatchSpec ["Figma", "UI/UX Design"]
      ["UI/UX Design", "Figma", "Design Systems"] :=
  c1_evaluate_match_contract _ _ (by decide) (by decide)

/-- C9 counterexample: on the documented 2-of-2 example the code produces
"Matched 2 of 2 required skills" with no trailing period, so the claimed
exact string "Matched 2 of 2 required skills." is not produced. -/
theorem c9_explanation_counterexample :
    (evaluate_match ["Figma", "UI/UX Design"]
        ["UI/UX Design", "Figma", "Design Systems"]).explanation
      = "Matched 2 of 2 required skills"
    ∧ (evaluate_match ["Figma", "UI/UX Design"]
        ["UI/UX Design", "Figma", "Design Systems"]).explanation
      ≠ "Matched 2 of 2 required skills." := by decide

/-- C9 amended: the explanation is the deterministic template
"Matched N of M required skills" (no trailing period) when at least one
skill matched, and the fixed string "No matching skills found" when zero
skills matched. -/
theorem c9_explanation_template (request_skills profile_skills : List String) :
    ExplanationSpec request_skills profile_skills := by
  unfold ExplanationSpec evaluate_match
  by_cases hempty : (profile_skills.filter
      fun skill => decide (skill ∈ request_skills)).isEmpty = true
  · simp only [if_pos hempty]
    exact ⟨fun _ => trivial, fun h => absurd rfl h⟩
  · have hne : (profile_skills.filter
        fun skill => decide (skill ∈ request_skills)) ≠ [] := by
      intro hnil
      rw [hnil] at hempty
      exact hempty rfl
    simp only [if_neg hempty]
    exact ⟨fun h => absurd h hne, fun _ => trivial⟩

/-- C9 witness: both branches of the template at concrete inputs. -/
theorem c9_explanation_template_witness :
    (evaluate_match ["Figma", "UI/UX Design"]
        ["UI/UX Design", "Figma", "Design Systems"]).explanation
      = "Matched "
        ++ toString (evaluate_match ["Figma", "UI/UX Design"]
            ["UI/UX Design", "Figma", "Design Systems"]).matched_skills.length
        ++ " of " ++ toString (["Figma", "UI/UX Design"] : List String).length
        ++ " required skills"
    ∧ (evaluate_match ["Figma"] ["React"]).explanation
      = "No matching skills found" :=
  ⟨(c9_explanation_template ["Figma", "UI/UX Design"]
      ["UI/UX Design", "Figma", "Design Systems"]).2 (by decide),
   (c9_explanation_template ["Figma"] ["React"]).1 (by decide)⟩

/-- C10: the match score stays in [0,1] whenever the profile's skill list
has no duplicates, and a profile listing a required skill twice is counted
per occurrence, driving the score above 1 (here to 2). -/
theorem c10_score_range_needs_nodup_profile :
    (∀ request_skills profile_skills : List String, profile_skills.Nodup →
      0 ≤ (evaluate_match request_skills profile_skills).match_score
      ∧ (evaluate_match request_skills profile_skills).match_score ≤ 1)
    ∧ (evaluate_match ["Figma"] ["Figma", "Figma"]).match_score = 2
    ∧ 1 < (evaluate_match ["Figma"] ["Figma", "Figma"]).match_score := by
  refine ⟨?_, by decide, by decide⟩
  intro request_skills profile_skills hprof
  unfold evaluate_match
  by_cases hempty : (profile_skills.filter
      fun skill => decide (skill ∈ request_skills)).isEmpty = true
  · simp only [if_pos hempty]
    norm_num
  · simp only [if_neg hempty]
    have hnodup : (profile_skills.filter
        fun skill => decide (skill ∈ request_skills)).Nodup := hprof.filter _
    have hsub : (profile_skills.filter
        fun skill => decide (skill ∈ request_skills)).toFinset
        ⊆ request_skills.toFinset := by
      intro a ha
      simp only [List.mem_toFinset, List.mem_filter, decide_eq_true_eq] at ha
      exact List.mem_toFinset.mpr ha.2
    have hlen : (profile_skills.filter
        fun skill => decide (skill ∈ request_skills)).length
        ≤ max request_skills.length 1 := by
      calc (profile_skills.filter
            fun skill => decide (skill ∈ request_skills)).length
          = (profile_skills.filter
            fun skill => decide (skill ∈ request_skills)).toFinset.card :=
            (List.toFinset_card_of_nodup hnodup).symm
        _ ≤ request_skills.toFinset.card := Finset.card_le_card hsub
        _ ≤ request_skills.length := List.toFinset_card_le request_skills
        _ ≤ max request_skills.length 1 := le_max_left _ _
    constructor
    · positivity
    · rw [div_le_one (by positivity)]
      exact_mod_cast hlen

/-- C10 witness: a duplicate-free profile stays in [0,1] at a concrete
input. -/
theorem c10_score_range_witness :
    0 ≤ (evaluate_match ["Figma", "React"] ["Figma"]).match_score
    ∧ (evaluate_match ["Figma", "React"] ["Figma"]).match_score ≤ 1 :=
  c10_score_range_needs_nodup_profile.1 ["Figma", "React"] ["Figma"] (by decide)


/-- `insertDesc` inserts, up to permutation. -/
theorem insertDesc_perm (x : RankedMatch) (l : List RankedMatch) :
    (insertDesc x l).Perm (x :: l) := by
  induction l with
  | nil => exact List.Perm.refl _
  | cons y ys ih =>
    unfold insertDesc
    by_cases h : y.final_score ≤ x.final_score
    · rw [if_pos h]
    · rw [if_neg h]
      exact (ih.cons y).trans (List.Perm.swap x y ys)

/-- The descending sort permutes its input. -/
theorem sortDesc_perm (l : List RankedMatch) : (sortDesc l).Perm l := by
  induction l with
  | nil => exact List.Perm.refl _
  | cons x xs ih => exact (insertDesc_perm x (sortDesc xs)).trans (ih.cons x)

/-- Membership passes through `insertDesc`. -/
theorem mem_insertDesc {a x : RankedMatch} {l : List RankedMatch} :
    a ∈ insertDesc x l ↔ a = x ∨ a ∈ l := by
  rw [(insertDesc_perm x l).mem_iff]
  exact List.mem_cons

/-- `insertDesc` keeps the list descending in `final_score`. -/
theorem pairwise_insertDesc (x : RankedMatch) {l : List RankedMatch}
    (h : l.Pairwise fun a b => b.final_score ≤ a.final_score) :
    (insertDesc x l).Pairwise fun a b => b.final_score ≤ a.final_score := by
  induction l with
  | nil => simp [insertDesc]
  | cons y ys ih =>
    rcases List.pairwise_cons.mp h with ⟨hy, hys⟩
    unfold insertDesc
    by_cases hc : y.final_score ≤ x.final_score
    · rw [if_pos hc]
      refine List.pairwise_cons.mpr ⟨?_, h⟩
      intro z hz
      rcases List.mem_cons.mp hz with rfl | hz
      · exact hc
      · exact (hy z hz).trans hc
    · rw [if_neg hc]
      refine List.pairwise_cons.mpr ⟨?_, ih hys⟩
      intro z hz
      rcases mem_insertDesc.mp hz with rfl | hz
      · exact le_of_lt (not_le.mp hc)
      · exact hy z hz

/-- The result of `sortDesc` is descending in `final_score`. -/
theorem sortDesc_pairwise (l : List RankedMatch) :
    (sortDesc l).Pairwise fun a b => b.final_score ≤ a.final_score := by
  induction l with
  | nil => simp [sortDesc]
  | cons x xs ih => exact pairwise_insertDesc x ih

/-- Every row of the ranked output comes from a stored response for this
request that passed the `is_match = TRUE` filter and joined successfully. -/
theorem mem_ranked {st : State} {rid : String} {m : RankedMatch}
    (hm : m ∈ (get_ranked_results st rid).getD []) :
    ∃ ar, ar ∈ st.agent_responses
      ∧ (ar.request_id == rid && ar.is_match) = true
      ∧ rankRow st rid ar = some m := by
  unfold get_ranked_results at hm
  set rows := (st.agent_responses.filter fun ar =>
      ar.request_id == rid && ar.is_match).filterMap (rankRow st rid) with hrows
  by_cases h : (sortDesc rows).isEmpty = true
  · rw [if_pos h] at hm
    exact absurd hm (List.not_mem_nil m)
  · rw [if_neg h] at hm
    have hmem : m ∈ rows := (sortDesc_perm rows).mem_iff.mp hm
    rcases List.mem_filterMap.mp (hrows ▸ hmem) with ⟨ar, harf, hrow⟩
    rcases List.mem_filter.mp harf with ⟨harmem, harp⟩
    exact ⟨ar, harmem, harp, hrow⟩

/-- C2: every row of `rank` carries `finalScore = matchScore * 0.7 +
trustScore * 0.3`, where `trustScore` is looked up on the edge between the
request's requester and the candidate and defaults to 1 when no edge
exists. -/
theorem c2_final_score_formula (st : State) (rid : String)
    (sr : ServiceRequest) (m : RankedMatch)
    (hsr : st.service_requests.find? (fun r => r.id == rid) = some sr)
    (hm : m ∈ (get_ranked_results st rid).getD []) :
    RankedEntrySpec st sr m := by
  rcases mem_ranked hm with ⟨ar, _, _, hrow⟩
  unfold rankRow at hrow
  rcases Option.map_eq_some'.mp hrow with ⟨u, _, hu⟩
  rw [hsr] at hu
  subst hu
  refine ⟨rfl, rfl, ?_⟩
  intro hnone
  dsimp only at hnone ⊢
  unfold trust_lookup
  rw [hnone]

/-- C2 witness: the single ranked row of `W2` satisfies the contract. -/
theorem c2_final_score_formula_witness : RankedEntrySpec W2 sr2 m2 :=
  c2_final_score_formula W2 "r1" sr2 m2 (by decide) (by decide)

/-- C3: every candidate in the ranked output is backed by a stored
response for this request with `is_match = true`; non-matching responses
never appear. -/
theorem c3_only_matching_responses (st : State) (rid : String)
    (m : RankedMatch) (hm : m ∈ (get_ranked_results st rid).getD []) :
    BackedByMatchingResponse st rid m := by
  rcases mem_ranked hm with ⟨ar, hmem, hflt, hrow⟩
  have hflt2 : ar.request_id = rid ∧ ar.is_match = true := by simpa using hflt
  unfold rankRow at hrow
  rcases Option.map_eq_some'.mp hrow with ⟨u, _, hu⟩
  refine ⟨ar, hmem, hflt2.1, hflt2.2, ?_, ?_⟩
  · rw [← hu]
  · rw [← hu]

/-- C3 witness: the ranked row of `W2` traces back to its stored matching
response. -/
theorem c3_only_matching_responses_witness :
    BackedByMatchingResponse W2 "r1" m2 :=
  c3_only_matching_responses W2 "r1" m2 (by decide)

/-- C6 counterexample: `E6a` and `E6b` store the same rows (the response
tables are permutations, all other tables equal), yet `rank` returns the
two tied candidates in different orders — the `ORDER BY final_score DESC`
carries no secondary key, so tie order follows the unspecified enumeration
order of the stored responses. -/
theorem c6_tie_order_counterexample :
    E6a.agent_responses.Perm E6b.agent_responses
    ∧ E6a.users = E6b.users
    ∧ E6a.profiles = E6b.profiles
    ∧ E6a.connections = E6b.connections
    ∧ E6a.service_requests = E6b.service_requests
    ∧ E6a.agent_messages = E6b.agent_messages
    ∧ get_ranked_results E6a "r1" ≠ get_ranked_results E6b "r1" := by
  refine ⟨by decide, rfl, rfl, rfl, rfl, rfl, by decide⟩

/-- C6 amended: the output of `rank` is ordered descending by `finalScore`,
but the code applies no secondary tie-break key, so the relative order of
rows with equal `finalScore` depends on the enumeration order of the stored
responses and is not reproducible from the stored data alone. -/
theorem c6_sorted_desc (st : State) (rid : String) :
    ((get_ranked_results st rid).getD []).Pairwise
      fun a b => b.final_score ≤ a.final_score := by
  unfold get_ranked_results
  set rows := (st.agent_responses.filter fun ar =>
      ar.request_id == rid && ar.is_match).filterMap (rankRow st rid)
  by_cases h : (sortDesc rows).isEmpty = true
  · rw [if_pos h]
    exact List.Pairwise.nil
  · rw [if_neg h]
    exact sortDesc_pairwise rows

/-- Dissection of a successful `record_agent_response`: the request and
candidate existed, other tables are untouched, and exactly the new response
row was appended. -/
theorem record_ok_state (st st' : State) (rid cand : String) (ev : MatchResult)
    (h : record_agent_response st rid cand ev = .ok st') :
    st'.service_requests = st.service_requests
    ∧ st'.users = st.users
    ∧ st'.agent_responses = st.agent_responses ++ [mkAgentResponse rid cand ev]
    ∧ requestExists st rid = true
    ∧ userExists st cand = true := by
  unfold record_agent_response at h
  split at h
  next => simp at h
  next h1 =>
    split at h
    next => simp at h
    next h2 =>
      split at h
      next => simp at h
      next h3 =>
        split at h
        next => simp at h
        next sr hfind =>
          split at h
          next => simp at h
          next h4 =>
            rw [Except.ok.injEq] at h
            subst h
            exact ⟨rfl, rfl, rfl, not_not.mp h1, not_not.mp h2⟩

/-- C4: after a successful `record_agent_response` for a pair, a second
attempt for the same pair fails with the unique-constraint violation
(returning no new state, so the store is untouched and no audit message is
appended), and the first recorded response is still present unchanged. -/
theorem c4_duplicate_response_rejected (st st' : State) (rid cand : String)
    (ev ev' : MatchResult)
    (h : record_agent_response st rid cand ev = .ok st') :
    record_agent_response st' rid cand ev' = .error .UniqueViolation
    ∧ mkAgentResponse rid cand ev ∈ st'.agent_responses := by
  obtain ⟨hsr, hsu, hresp, hreq, huser⟩ := record_ok_state st st' rid cand ev h
  have e1 : requestExists st' rid = true := by
    unfold requestExists
    rw [hsr]
    exact hreq
  have e2 : userExists st' cand = true := by
    unfold userExists
    rw [hsu]
    exact huser
  have e3 : (st'.agent_responses.any fun r =>
      r.request_id == rid && r.responding_user_id == cand) = true := by
    rw [hresp]
    simp [mkAgentResponse]
  constructor
  · unfold record_agent_response
    rw [if_neg (not_not_intro e1), if_neg (not_not_intro e2), if_pos e3]
  · rw [hresp]
    simp

/-- C4 witness: recording twice for `(r1, u1)` on the concrete store. -/
theorem c4_duplicate_response_rejected_witness :
    record_agent_response W4ok "r1" "u1" evHalf = .error .UniqueViolation
    ∧ mkAgentResponse "r1" "u1" evHalf ∈ W4ok.agent_responses :=
  c4_duplicate_response_rejected W4 W4ok "r1" "u1" evHalf evHalf (by decide)

/-- C5 counterexample: `W5`'s only request is `completed` (not active),
yet both recording a response to it and broadcasting it succeed — the code
never checks `status`, contradicting the claim that neither operation
succeeds against a non-active request. -/
theorem c5_status_ignored_counterexample :
    (W5.service_requests.find? fun r => r.id == "r1")
      = some { id := "r1", requesting_user_id := "u1", skills := ["Figma"],
               status := "completed" }
    ∧ (record_agent_response W5 "r1" "u2" evHalf).isOk = true
    ∧ (broadcast_request W5 "u1" "r1").isOk = true := by decide

/-- C5 amended: recording against a requestId with no `service_requests`
row fails on the foreign key (the only `UnknownRequest`-like behaviour),
and broadcast fails for a missing request only when the requester has at
least one connection; but neither operation inspects `status` — whenever
the referenced rows exist (any status, `completed` and `cancelled`
included) and no duplicate exists, both operations succeed. -/
theorem c5_no_status_check (st : State) (requester rid cand : String)
    (ev : MatchResult) :
    (requestExists st rid = false →
      record_agent_response st rid cand ev = .error .ForeignKeyViolation)
    ∧ (requestExists st rid = false → connectedUsers st requester ≠ [] →
      broadcast_request st requester rid = .error .ForeignKeyViolation)
    ∧ (∀ sr, st.service_requests.find? (fun r => r.id == rid) = some sr →
        userExists st cand = true →
        userExists st sr.requesting_user_id = true →
        (st.agent_responses.any fun r =>
          r.request_id == rid && r.responding_user_id == cand) = false →
        (record_agent_response st rid cand ev).isOk = true)
    ∧ (userExists st requester = true →
        (∀ c ∈ connectedUsers st requester, userExists st c = true) →
        requestExists st rid = true →
        (broadcast_request st requester rid).isOk = true) := by
  refine ⟨?_, ?_, ?_, ?_⟩
  · intro hre
    unfold record_agent_response
    rw [if_pos (by simp [hre])]
  · intro hre hconn
    simp only [broadcast_request]
    rw [if_neg (by simpa [List.isEmpty_iff] using hconn), if_neg (by simp [hre])]
  · intro sr hfind hu hru hdup
    have hre : requestExists st rid = true := by
      unfold requestExists
      rw [List.any_eq_true]
      exact ⟨sr, List.mem_of_find?_eq_some hfind, by simpa using List.find?_some hfind⟩
    unfold record_agent_response
    rw [if_neg (not_not_intro hre), if_neg (not_not_intro hu),
      if_neg (by simp [hdup]), hfind]
    dsimp only
    rw [if_neg (not_not_intro hru)]
    rfl
  · intro hu hall hre
    simp only [broadcast_request]
    by_cases hempty : (connectedUsers st requester).isEmpty = true
    · rw [if_pos hempty]
      rfl
    · have hcond : (userExists st requester
          && (connectedUsers st requester).all (fun c => userExists st c)
          && requestExists st rid) = true := by
        simp only [hu, hre, Bool.true_and, Bool.and_true, List.all_eq_true]
        exact fun c hc => hall c hc
      rw [if_neg hempty, if_pos hcond]
      rfl

/-- C5 witness: on `W5`, a dangling requestId is rejected both ways while
the existing `completed` request is accepted both ways. -/
theorem c5_no_status_check_witness :
    record_agent_response W5 "nope" "u2" evHalf = .error .ForeignKeyViolation
    ∧ broadcast_request W5 "u1" "nope" = .error .ForeignKeyViolation
    ∧ (record_agent_response W5 "r1" "u2" evHalf).isOk = true
    ∧ (broadcast_request W5 "u1" "r1").isOk = true :=
  ⟨(c5_no_status_check W5 "u1" "nope" "u2" evHalf).1 (by decide),
   (c5_no_status_check W5 "u1" "nope" "u2" evHalf).2.1 (by decide) (by decide),
   (c5_no_status_check W5 "u1" "r1" "u2" evHalf).2.2.1
     { id := "r1", requesting_user_id := "u1", skills := ["Figma"],
       status := "completed" }
     (by decide) (by decide) (by decide) (by decide),
   (c5_no_status_check W5 "u1" "r1" "u2" evHalf).2.2.2
     (by decide) (by decide) (by decide)⟩

/-- C7 counterexample: broadcasting for a requester with zero connections
succeeds but reports `broadcast_to` as SQL `NULL`
(`array_length` of an empty aggregation), not the claimed count 0. -/
theorem c7_null_count_counterexample :
    (broadcast_request E7 "u1" "r1").toOption.map (fun p => p.1.broadcast_to)
      = some none
    ∧ (broadcast_request E7 "u1" "r1").toOption.map (fun p => p.1.broadcast_to)
      ≠ some (some 0) := by decide

/-- C7 amended: with zero connections, `broadcast_request` succeeds, leaves
the store untouched (in particular emits no `query_broadcast` message), and
reports `broadcast_to = NULL` (`none`) rather than the count 0. -/
theorem c7_zero_connections_broadcast (st : State) (requester rid : String)
    (h : connectedUsers st requester = []) :
    broadcast_request st requester rid =
      .ok ({ broadcast_to := none, request_id := rid, status := "sent" }, st) := by
  simp only [broadcast_request]
  rw [if_pos (by simp [h])]

/-- C7 witness: the zero-connection broadcast on the concrete store. -/
theorem c7_zero_connections_broadcast_witness :
    broadcast_request E7 "u1" "r1" =
      .ok ({ broadcast_to := none, request_id := "r1", status := "sent" }, E7) :=
  c7_zero_connections_broadcast E7 "u1" "r1" (by decide)

/-- C8 counterexample: with only a non-matching response recorded, `rank`
returns SQL `NULL` (`json_agg` over zero rows, with no `COALESCE` to
`'[]'`), not the claimed empty sequence. -/
theorem c8_null_not_empty_counterexample :
    get_ranked_results E8 "r1" = none
    ∧ get_ranked_results E8 "r1" ≠ some [] := by decide

/-- C8 amended: when no stored response for the request has
`is_match = true`, `rank` returns `NULL` (`none`) — never an error, but an
absent result rather than an empty sequence. -/
theorem c8_no_matches_null (st : State) (rid : String)
    (h : ∀ ar ∈ st.agent_responses, ar.request_id = rid → ar.is_match = false) :
    get_ranked_results st rid = none := by
  have hf : (st.agent_responses.filter fun ar =>
      ar.request_id == rid && ar.is_match) = [] := by
    rw [List.filter_eq_nil_iff]
    intro ar hmem hcontra
    have hsplit : ar.request_id = rid ∧ ar.is_match = true := by
      simpa using hcontra
    have := h ar hmem hsplit.1
    rw [hsplit.2] at this
    exact Bool.true_eq_false.mp this
  simp only [get_ranked_results]
  rw [hf]
  rfl

/-- C8 witness: the store with one non-matching response yields `none`. -/
theorem c8_no_matches_null_witness : get_ranked_results E8 "r1" = none :=
  c8_no_matches_null E8 "r1" (by decide)
